/-
Verification of `db_maint.py` (HassHelper): a maintenance script for a
Home Assistant SQLite database.  The script resolves sensor names to numeric
ids in the `statistics_meta` table, checks time-range consistency, and
reassigns sample rows between sensors, gated by a global dry-run flag.

The embedding below models the database as lists of rows (one list per
table touched by the script), the write statements passed to `exec_modify`
as an inductive type `Stmt` carrying their parameters, and each script
function as an explicit state-passing Lean function over `ExecState`
(database + log + issued statements + printed row counts).
-/
import Mathlib

namespace DbMaint

/-! ### SQL LIKE pattern matching

`db_maint.py` uses `LIKE '%_2'` (in `merge_all_sensors`) and
`LIKE '%sensor%'` (in `list_all_sensors`).  In SQL, `%` matches any
sequence of characters, `_` matches exactly one character, and matching of
ASCII letters is case-insensitive by default in SQLite. -/

/-- SQLite LIKE compares ASCII characters case-insensitively. -/
def charLikeEq (a b : Char) : Bool := a.toLower == b.toLower

/-- SQL LIKE matching on character lists: `%` matches any sequence (the
rest of the pattern must match some suffix of the subject), `_` matches
exactly one character, other characters match themselves
(case-insensitively).  Structurally recursive on the pattern. -/
def likeMatchAux : List Char → List Char → Bool
  | [], s => s.isEmpty
  | '%' :: ps, s => s.tails.any fun t => likeMatchAux ps t
  | '_' :: ps, s =>
    match s with
    | [] => false
    | _ :: s' => likeMatchAux ps s'
  | p :: ps, s =>
    match s with
    | [] => false
    | c :: s' => charLikeEq p c && likeMatchAux ps s'

/-- Matching `likeMatch pat s` is SQL `s LIKE pat`. -/
def likeMatch (pat s : String) : Bool := likeMatchAux pat.toList s.toList

/-! ### Python string helpers

Python's `str.endswith`, `str.startswith` and `s[:-n]`, translated over the
character list of the string. -/

/-- Python `s.endswith(suffix)`. -/
def strEndsWith (s suffix : String) : Bool :=
  s.toList.drop (s.toList.length - suffix.toList.length) == suffix.toList
    && decide (suffix.toList.length ≤ s.toList.length)

/-- Python `s.startswith(pre)`. -/
def strStartsWith (s pre : String) : Bool :=
  s.toList.take pre.toList.length == pre.toList

/-- Python `s[:-n]` (for `n ≤ len(s)`; shorter strings yield `""`, as in
Python). -/
def strDropRight (s : String) (n : Nat) : String :=
  ⟨s.toList.take (s.toList.length - n)⟩

/-! ### Database model

The tables the script touches, with exactly the columns it reads or
writes.  `metadata_id` columns of sample/state rows are `Option Nat`
because SQL allows them to be NULL (and the `UPDATE OR IGNORE ... SET
metadata_id = (SELECT ...)` statements can in principle assign NULL when
the scalar subquery returns no row). -/

/-- A row of `statistics_meta`: numeric sensor id and sensor name
(`statistic_id` is the name column, as in the Home Assistant schema). -/
structure MetaRow where
  id : Nat
  statistic_id : String
deriving DecidableEq, Repr

/-- A row of `states_meta`: numeric metadata id and entity name. -/
structure StatesMetaRow where
  metadata_id : Nat
  entity_id : String
deriving DecidableEq, Repr

/-- A row of `statistics` or `statistics_short_term`: sensor reference plus
the two timestamps the consistency check reads. -/
structure StatRow where
  metadata_id : Option Nat
  created_ts : Int
  start_ts : Int
deriving DecidableEq, Repr

/-- A row of `states`: only the sensor reference column is touched. -/
structure StateRow where
  metadata_id : Option Nat
deriving DecidableEq, Repr

/-- The database state: the five tables `db_maint.py` reads or writes. -/
structure DB where
  statistics_meta : List MetaRow
  states_meta : List StatesMetaRow
  statistics : List StatRow
  statistics_short_term : List StatRow
  states : List StateRow
deriving DecidableEq, Repr

/-- The two sample tables (`for table in ["statistics", "statistics_short_term"]`). -/
inductive SampleTable where
  | statistics
  | statistics_short_term
deriving DecidableEq, Repr

/-! ### Write statements

Every SQL text passed to `exec_modify` in the script, as an inductive
carrying the statement's parameters (whether interpolated into the SQL
f-string or passed as bound parameters). -/

/-- The write statements `db_maint.py` passes to `exec_modify`:
* `updateSample t new old` — `UPDATE {t} SET metadata_id = {new} WHERE metadata_id = {old};`
  (from `merge_check_single_sensor`, ids interpolated);
* `updateOrIgnoreSample t orig s2` — `UPDATE OR IGNORE {t} SET metadata_id =
  (SELECT id FROM statistics_meta WHERE statistic_id = :original_name LIMIT 1)
  WHERE metadata_id = (SELECT id FROM statistics_meta WHERE statistic_id = :sensor2_name LIMIT 1);`
  (from `merge_single_sensor`);
* `deleteStatisticsMeta n` — `DELETE FROM statistics_meta WHERE statistic_id = ?`;
* `updateOrIgnoreStates orig s2` — same shape as `updateOrIgnoreSample` but on
  `states`, with the subqueries against `states_meta`;
* `deleteStatesMeta n` — `DELETE FROM states_meta WHERE entity_id = ?`. -/
inductive Stmt where
  | updateSample (t : SampleTable) (new_sensor_id old_sensor_id : Nat)
  | updateOrIgnoreSample (t : SampleTable) (original_name sensor2_name : String)
  | deleteStatisticsMeta (sensor2_name : String)
  | updateOrIgnoreStates (original_name sensor2_name : String)
  | deleteStatesMeta (sensor2_name : String)
deriving DecidableEq, Repr

/-- Query `SELECT id FROM statistics_meta WHERE statistic_id = :name LIMIT 1`:
the id of the first matching row, or NULL (`none`). -/
def statsMetaLookup1 (db : DB) (name : String) : Option Nat :=
  (db.statistics_meta.find? (fun r => r.statistic_id == name)).map (·.id)

/-- Query `SELECT metadata_id FROM states_meta WHERE entity_id = :name LIMIT 1`. -/
def statesMetaLookup1 (db : DB) (name : String) : Option Nat :=
  (db.states_meta.find? (fun r => r.entity_id == name)).map (·.metadata_id)

/-- Semantics of the plain `UPDATE {t} SET metadata_id = new WHERE
metadata_id = old` on a sample table. -/
def updateSampleRows (rows : List StatRow) (newId oldId : Nat) : List StatRow :=
  rows.map fun r =>
    if r.metadata_id == some oldId then { r with metadata_id := some newId } else r

/-- Semantics of `UPDATE OR IGNORE {t} SET metadata_id = newOpt WHERE
metadata_id = oldId` on a sample table.  Modelled from the spec: the Home
Assistant schema has a unique index on `(metadata_id, start_ts)` of each
sample table (the schema is external to this repository), and `OR IGNORE`
silently skips a row whose reassignment would collide with a pre-existing
row of the target sensor rather than aborting the statement. -/
def updateOrIgnoreSampleRows (rows : List StatRow) (oldId : Nat) (newOpt : Option Nat) :
    List StatRow :=
  rows.map fun r =>
    if r.metadata_id == some oldId then
      match newOpt with
      | none => { r with metadata_id := none }
      | some n =>
        if rows.any fun q => q.metadata_id == some n && q.start_ts == r.start_ts then r
        else { r with metadata_id := some n }
    else r

/-- Semantics of `UPDATE OR IGNORE states SET metadata_id = newOpt WHERE
metadata_id = oldId`. -/
def updateStatesRows (rows : List StateRow) (oldId : Nat) (newOpt : Option Nat) :
    List StateRow :=
  rows.map fun r => if r.metadata_id == some oldId then { r with metadata_id := newOpt } else r

/-- Read accessor for a sample table. -/
def DB.sample (db : DB) : SampleTable → List StatRow
  | .statistics => db.statistics
  | .statistics_short_term => db.statistics_short_term

/-- Write accessor for a sample table. -/
def DB.setSample (db : DB) : SampleTable → List StatRow → DB
  | .statistics, rows => { db with statistics := rows }
  | .statistics_short_term, rows => { db with statistics_short_term := rows }

/-- The database mutation performed by each write statement.  A `WHERE
metadata_id = (SELECT ...)` clause whose subquery returns NULL matches no
row (SQL three-valued logic), so the statement changes nothing. -/
def applyStmt (st : Stmt) (db : DB) : DB :=
  match st with
  | .updateSample t newId oldId =>
      db.setSample t (updateSampleRows (db.sample t) newId oldId)
  | .updateOrIgnoreSample t orig s2 =>
      match statsMetaLookup1 db s2 with
      | none => db
      | some oldId =>
          db.setSample t (updateOrIgnoreSampleRows (db.sample t) oldId (statsMetaLookup1 db orig))
  | .deleteStatisticsMeta name =>
      { db with statistics_meta := db.statistics_meta.filter fun r => !(r.statistic_id == name) }
  | .updateOrIgnoreStates orig s2 =>
      match statesMetaLookup1 db s2 with
      | none => db
      | some oldId => { db with states := updateStatesRows db.states oldId (statesMetaLookup1 db orig) }
  | .deleteStatesMeta name =>
      { db with states_meta := db.states_meta.filter fun r => !(r.entity_id == name) }

/-- Value of `cursor.rowcount` after each write statement: the number of rows the
statement modified or deleted. -/
def rowcountStmt (st : Stmt) (db : DB) : Nat :=
  match st with
  | .updateSample t _ oldId =>
      ((db.sample t).filter fun r => r.metadata_id == some oldId).length
  | .updateOrIgnoreSample t orig s2 =>
      match statsMetaLookup1 db s2 with
      | none => 0
      | some oldId =>
          match statsMetaLookup1 db orig with
          | none => ((db.sample t).filter fun r => r.metadata_id == some oldId).length
          | some n =>
              ((db.sample t).filter fun r => r.metadata_id == some oldId
                && !((db.sample t).any fun q => q.metadata_id == some n
                      && q.start_ts == r.start_ts)).length
  | .deleteStatisticsMeta name =>
      (db.statistics_meta.filter fun r => r.statistic_id == name).length
  | .updateOrIgnoreStates _ s2 =>
      match statesMetaLookup1 db s2 with
      | none => 0
      | some oldId => (db.states.filter fun r => r.metadata_id == some oldId).length
  | .deleteStatesMeta name =>
      (db.states_meta.filter fun r => r.entity_id == name).length

/-! ### Logging

Every `logging.info/warning/error` call of the script, as an inductive
carrying the format arguments.  The constructor identifies the format
string, so two calls with different format strings produce provably
distinct log entries. -/

/-- Python logging levels used by the script. -/
inductive Level where
  | info
  | warning
  | error
deriving DecidableEq, Repr

/-- One log line, identified by its format string and arguments. -/
inductive LogEntry where
  /-- Line `INFO "Dry-run: %s with parameter %s"` from `exec_modify` (the
  statement carries its parameters). -/
  | dryRunStmt (stmt : Stmt)
  /-- Line `ERROR "Sensor %s not found."` from `query_statistics_sensor_id`. -/
  | sensorNotFound (name : String)
  /-- Line `ERROR "Multiple sensors with name %s found."` -/
  | multipleSensors (name : String)
  /-- Line `INFO "Available sensors:"` from `list_all_sensors`. -/
  | availableSensors
  /-- Line `INFO " - %s"` from `list_all_sensors`. -/
  | sensorItem (name : String)
  /-- Line `INFO "Skip electric meter sensor %s"` from `merge_all_sensors`. -/
  | skipElectricMeter (name : String)
  /-- Line `INFO "Process sensor %s"` from `merge_all_sensors`. -/
  | processSensor (name : String)
  /-- Line `ERROR "Sensor name %s ends with _2. ..."` from `merge_single_sensor`. -/
  | endsWith2 (name : String)
  /-- Line `WARNING "Sensor %s does not exist. Skip changing data assignment..."` -/
  | doesNotExist (name : String)
  /-- Line `INFO "Assign values from %s to %s"` from `merge_single_sensor`. -/
  | assignValues (sensor2_name original_name : String)
  /-- Line `INFO 'Update table "%s"'` from `merge_single_sensor`. -/
  | updateTable (table : String)
  /-- Line `INFO "Delete statistics meta data for %s"` -/
  | deleteStatsMetaMsg (name : String)
  /-- Line `INFO "Delete states meta data for %s"` -/
  | deleteStatesMetaMsg (name : String)
  /-- Line `INFO "Old sensor id: %d"` from `merge_check_single_sensor`. -/
  | oldSensorIdMsg (id : Nat)
  /-- Line `INFO "New sensor id: %d"` -/
  | newSensorIdMsg (id : Nat)
  /-- Line `ERROR "Old and new sensor have the same id %d"` -/
  | sameId (id : Nat)
  /-- Line `ERROR "First created_ts timestamp %s of the new sensor %s is older than
  the last timestamp %s of the old sensor %s"` -/
  | firstCreatedOlder (new_created_ts : Int) (new_name : String) (old_created_ts : Int) (old_name : String)
  /-- Line `ERROR "First created_ts timestamp %s ... is equal to ..."` -/
  | firstCreatedEqual (new_created_ts : Int) (new_name : String) (old_created_ts : Int) (old_name : String)
  /-- Line `ERROR "First start_ts timestamp %s ... is older than ..."` -/
  | firstStartOlder (new_start_ts : Int) (new_name : String) (old_start_ts : Int) (old_name : String)
  /-- Line `ERROR "First start_ts timestamp %s ... is equal to ..."` -/
  | firstStartEqual (new_start_ts : Int) (new_name : String) (old_start_ts : Int) (old_name : String)
  /-- Line `INFO "Consistency checks passed"` -/
  | checksPassed
  /-- Line `INFO "Assign data from the old sensor in table %s to the new sensor"` -/
  | assignTable (table : SampleTable)
  /-- Line `INFO "This was a dry-run. No data was modified. ..."` -/
  | dryRunSummary
  /-- Line `INFO "All data from the old sensor assigned to the new sensor"`
  (from `merge_check_single_sensor`, no arguments). -/
  | allAssigned
  /-- Line `INFO "All data from the old sensor %s assigned to the new sensor %s"`
  (from `merge_single_sensor`, with both names). -/
  | allAssignedNamed (sensor2_name original_name : String)
deriving DecidableEq, Repr

/-- The logging level of each log line in the script. -/
def LogEntry.level : LogEntry → Level
  | .dryRunStmt _ => .info
  | .sensorNotFound _ => .error
  | .multipleSensors _ => .error
  | .availableSensors => .info
  | .sensorItem _ => .info
  | .skipElectricMeter _ => .info
  | .processSensor _ => .info
  | .endsWith2 _ => .error
  | .doesNotExist _ => .warning
  | .assignValues _ _ => .info
  | .updateTable _ => .info
  | .deleteStatsMetaMsg _ => .info
  | .deleteStatesMetaMsg _ => .info
  | .oldSensorIdMsg _ => .info
  | .newSensorIdMsg _ => .info
  | .sameId _ => .error
  | .firstCreatedOlder _ _ _ _ => .error
  | .firstCreatedEqual _ _ _ _ => .error
  | .firstStartOlder _ _ _ _ => .error
  | .firstStartEqual _ _ _ _ => .error
  | .checksPassed => .info
  | .assignTable _ => .info
  | .dryRunSummary => .info
  | .allAssigned => .info
  | .allAssignedNamed _ _ => .info

/-! ### Execution state and the statement executor -/

/-- The observable state of one script run: the database, the log stream,
every statement passed to `exec_modify` (in both modes), and the row
counts printed to stdout by live-mode writes. -/
structure ExecState where
  db : DB
  log : List LogEntry
  calls : List Stmt
  stdout : List Nat
deriving DecidableEq, Repr

/-- Append one log line. -/
def addLog (s : ExecState) (e : LogEntry) : ExecState :=
  { s with log := s.log ++ [e] }

/-- Fresh state over a database (start of a script run). -/
def initState (db : DB) : ExecState :=
  { db := db, log := [], calls := [], stdout := [] }

/-- Function `exec_modify(stmt, params)` of `db_maint.py`.  The Python function is
annotated `-> None`: the dry-run branch logs the statement with its
parameters and returns `None`; the live branch executes the statement,
prints `f"{cursor.rowcount} rows modified / deleted"` to stdout and falls
through, returning `None` as well.  The returned `Option Nat` is the
Python return value, hence `none` on both paths. -/
def exec_modify (dry_run : Bool) (stmt : Stmt) (s : ExecState) : ExecState × Option Nat :=
  let s' := { s with calls := s.calls ++ [stmt] }
  if dry_run then
    (addLog s' (.dryRunStmt stmt), none)
  else
    ({ s' with
        db := applyStmt stmt s'.db
        stdout := s'.stdout ++ [rowcountStmt stmt s'.db] },
      none)

/-! ### Sensor lookup -/

/-- Function `query_statistics_sensor_id(sensor_name)`: `SELECT id, statistic_id
FROM statistics_meta WHERE statistic_id = ?`, then zero rows → error +
`None`, more than one row → error + `None`, exactly one row → its id
(`rows[0][0]`). -/
def query_statistics_sensor_id (sensor_name : String) (s : ExecState) :
    ExecState × Option Nat :=
  let rows := s.db.statistics_meta.filter fun r => r.statistic_id == sensor_name
  if rows.length == 0 then
    (addLog s (.sensorNotFound sensor_name), none)
  else if rows.length > 1 then
    (addLog s (.multipleSensors sensor_name), none)
  else
    (s, rows.head?.map (·.id))

/-- Pure view of the lookup: the id `query_statistics_sensor_id` returns,
as a function of the database alone. -/
def resolveId (db : DB) (name : String) : Option Nat :=
  let rows := db.statistics_meta.filter fun r => r.statistic_id == name
  if rows.length == 1 then rows.head?.map (·.id) else none

/-- The SQL name of a sample table, as interpolated into log lines. -/
def SampleTable.tableName : SampleTable → String
  | .statistics => "statistics"
  | .statistics_short_term => "statistics_short_term"

/-! ### list_all_sensors -/

/-- Function `list_all_sensors()`: `SELECT statistic_id FROM statistics_meta WHERE
statistic_id like '%sensor%' UNION SELECT entity_id FROM states_meta WHERE
entity_id like '%sensor%' ORDER BY a ASC`, then log each name.  `UNION`
deduplicates and the result is sorted ascending. -/
def list_all_sensors (s : ExecState) : ExecState :=
  let names :=
    ((s.db.statistics_meta.filter fun r => likeMatch "%sensor%" r.statistic_id).map (·.statistic_id)
      ++ (s.db.states_meta.filter fun r => likeMatch "%sensor%" r.entity_id).map (·.entity_id)).dedup
  let sorted := names.mergeSort fun a b => decide (a ≤ b)
  sorted.foldl (fun s n => addLog s (.sensorItem n)) (addLog s .availableSensors)

/-! ### merge_single_sensor -/

/-- Function `merge_single_sensor(original_name)`: derive `sensor2_name =
f"{original_name}_2"`; reject names already ending in `_2`; warn and
return if either name does not resolve; otherwise update both sample
tables (UPDATE OR IGNORE), delete the duplicate's `statistics_meta` row,
update `states`, delete the duplicate's `states_meta` row, and log a
dry-run or applied summary. -/
def merge_single_sensor (original_name : String) (dry_run : Bool) (s : ExecState) :
    ExecState :=
  let sensor2_name := original_name ++ "_2"
  if strEndsWith original_name "_2" then
    addLog s (.endsWith2 original_name)
  else
    match query_statistics_sensor_id original_name s with
    | (s, none) => addLog s (.doesNotExist original_name)
    | (s, some _) =>
      match query_statistics_sensor_id sensor2_name s with
      | (s, none) => addLog s (.doesNotExist sensor2_name)
      | (s, some _) =>
        let s := addLog s (.assignValues sensor2_name original_name)
        let s := [SampleTable.statistics, SampleTable.statistics_short_term].foldl
          (fun s t =>
            let s := addLog s (.updateTable t.tableName)
            (exec_modify dry_run (.updateOrIgnoreSample t original_name sensor2_name) s).1)
          s
        let s := addLog s (.deleteStatsMetaMsg sensor2_name)
        let s := (exec_modify dry_run (.deleteStatisticsMeta sensor2_name) s).1
        let s := addLog s (.updateTable "states")
        let s := (exec_modify dry_run (.updateOrIgnoreStates original_name sensor2_name) s).1
        let s := addLog s (.deleteStatesMetaMsg sensor2_name)
        let s := (exec_modify dry_run (.deleteStatesMeta sensor2_name) s).1
        if dry_run then addLog s .dryRunSummary
        else addLog s (.allAssignedNamed sensor2_name original_name)

/-! ### merge_all_sensors -/

/-- The first loop of `merge_all_sensors`: for each candidate, strip the
last two characters (`sensor2_name[:-2]`), skip (with a log line) names
whose base starts with `sensor.electricmeter`, collect the rest (with a
log line). -/
def merge_all_collect (names2 : List String) (s : ExecState) : ExecState × List String :=
  match names2 with
  | [] => (s, [])
  | sensor2_name :: rest =>
    let sensor_name := strDropRight sensor2_name 2
    if strStartsWith sensor_name "sensor.electricmeter" then
      merge_all_collect rest (addLog s (.skipElectricMeter sensor_name))
    else
      let res := merge_all_collect rest (addLog s (.processSensor sensor_name))
      (res.1, sensor_name :: res.2)

/-- Function `merge_all_sensors()`: `SELECT statistic_id FROM statistics_meta WHERE
statistic_id like '%_2'` (note: `_` is a single-character LIKE wildcard),
collect candidates via the first loop, then run `merge_single_sensor` on
each collected base name. -/
def merge_all_sensors (dry_run : Bool) (s : ExecState) : ExecState :=
  let list_all_2_sensors :=
    (s.db.statistics_meta.filter fun r => likeMatch "%_2" r.statistic_id).map (·.statistic_id)
  let res := merge_all_collect list_all_2_sensors s
  res.2.foldl (fun s n => merge_single_sensor n dry_run s) res.1

/-! ### merge_check_single_sensor -/

/-- Outcome of a Python call: returned normally, or raised an uncaught
exception (here: the `TypeError` from unpacking `cursor.fetchone()` when
it is `None`).  Both carry the state at the moment of return/raise. -/
inductive PyResult where
  | ok (s : ExecState)
  | exn (s : ExecState)
deriving DecidableEq, Repr

/-- The state carried by either outcome. -/
def PyResult.state : PyResult → ExecState
  | .ok s => s
  | .exn s => s

/-- Whether the call ended in an uncaught exception. -/
def PyResult.raised : PyResult → Bool
  | .ok _ => false
  | .exn _ => true

/-- Query `SELECT created_ts, start_ts FROM statistics WHERE metadata_id =
:sensor_id ORDER BY created_ts DESC LIMIT 1`, i.e. the row of the sensor
with the greatest `created_ts` (ties broken by table order, a
deterministic refinement of SQLite's unspecified tie order), or `none`
when the sensor has no row. -/
def lastByCreated (rows : List StatRow) (sensor_id : Nat) : Option (Int × Int) :=
  (rows.filter fun r => r.metadata_id == some sensor_id).foldl
    (fun acc r =>
      match acc with
      | none => some (r.created_ts, r.start_ts)
      | some (c, st) => if r.created_ts > c then some (r.created_ts, r.start_ts) else some (c, st))
    none

/-- Same with `ORDER BY created_ts ASC LIMIT 1`: the row with the least
`created_ts`. -/
def firstByCreated (rows : List StatRow) (sensor_id : Nat) : Option (Int × Int) :=
  (rows.filter fun r => r.metadata_id == some sensor_id).foldl
    (fun acc r =>
      match acc with
      | none => some (r.created_ts, r.start_ts)
      | some (c, st) => if r.created_ts < c then some (r.created_ts, r.start_ts) else some (c, st))
    none

/-- Function `merge_check_single_sensor(old_sensor_name, new_sensor_name)`:
resolve both names (return on failure), reject equal ids, fetch the old
sensor's latest and the new sensor's earliest `statistics` row (unpacking
`fetchone()` raises when a sensor has no row), run the four ordering
checks, and on success issue the two plain UPDATE statements on the
sample tables. -/
def merge_check_single_sensor (old_sensor_name new_sensor_name : String)
    (dry_run : Bool) (s : ExecState) : PyResult :=
  match query_statistics_sensor_id old_sensor_name s with
  | (s, none) => .ok s
  | (s, some old_sensor_id) =>
  let s := addLog s (.oldSensorIdMsg old_sensor_id)
  match query_statistics_sensor_id new_sensor_name s with
  | (s, none) => .ok s
  | (s, some new_sensor_id) =>
  let s := addLog s (.newSensorIdMsg new_sensor_id)
  if old_sensor_id == new_sensor_id then
    .ok (addLog s (.sameId old_sensor_id))
  else
    match lastByCreated s.db.statistics old_sensor_id with
    | none => .exn s
    | some (old_created_ts, old_start_ts) =>
    match firstByCreated s.db.statistics new_sensor_id with
    | none => .exn s
    | some (new_created_ts, new_start_ts) =>
    if new_created_ts < old_created_ts then
      .ok (addLog s (.firstCreatedOlder new_created_ts new_sensor_name old_created_ts old_sensor_name))
    else if new_created_ts == old_created_ts then
      .ok (addLog s (.firstCreatedEqual new_created_ts new_sensor_name old_created_ts old_sensor_name))
    else if new_start_ts < old_start_ts then
      .ok (addLog s (.firstStartOlder new_start_ts new_sensor_name old_start_ts old_sensor_name))
    else if new_start_ts == old_start_ts then
      .ok (addLog s (.firstStartEqual new_start_ts new_sensor_name old_start_ts old_sensor_name))
    else
      let s := addLog s .checksPassed
      let s := [SampleTable.statistics, SampleTable.statistics_short_term].foldl
        (fun s t =>
          (exec_modify dry_run (.updateSample t new_sensor_id old_sensor_id)
            (addLog s (.assignTable t))).1)
        s
      if dry_run then .ok (addLog s .dryRunSummary) else .ok (addLog s .allAssigned)

/-! ### CLI actions -/

/-- The four subcommands dispatched by the `__main__` block. -/
inductive Action where
  | list_sensors
  | merge_check (sensor_name_old sensor_name_new : String)
  | merge_all
  | merge_single (sensor_name : String)
deriving DecidableEq, Repr

/-- Dispatch one subcommand, as the `__main__` block does. -/
def runAction (dry_run : Bool) (s : ExecState) : Action → ExecState
  | .list_sensors => list_all_sensors s
  | .merge_check o n => (merge_check_single_sensor o n dry_run s).state
  | .merge_all => merge_all_sensors dry_run s
  | .merge_single n => merge_single_sensor n dry_run s

/-- Run a sequence of subcommand invocations over the same database. -/
def runActions (dry_run : Bool) (acts : List Action) (s : ExecState) : ExecState :=
  acts.foldl (runAction dry_run) s

/-- Statements against the two sample tables (the only writes
`merge_check_single_sensor` issues). -/
def Stmt.isSampleUpdate : Stmt → Bool
  | .updateSample _ _ _ => true
  | _ => false

/-! ### Basic lemmas about the execution state -/

@[simp] theorem addLog_db (s : ExecState) (e : LogEntry) : (addLog s e).db = s.db := rfl

@[simp] theorem addLog_calls (s : ExecState) (e : LogEntry) : (addLog s e).calls = s.calls := rfl

@[simp] theorem addLog_stdout (s : ExecState) (e : LogEntry) : (addLog s e).stdout = s.stdout := rfl

@[simp] theorem addLog_log (s : ExecState) (e : LogEntry) : (addLog s e).log = s.log ++ [e] := rfl

/-! ### Lemmas about the sensor lookup -/

/-- When the pure lookup finds an id, `query_statistics_sensor_id` returns
it and leaves the state untouched. -/
theorem query_eq_of_resolve (name : String) (s : ExecState) (id : Nat)
    (h : resolveId s.db name = some id) :
    query_statistics_sensor_id name s = (s, some id) := by
  unfold resolveId at h
  unfold query_statistics_sensor_id
  by_cases h1 : (s.db.statistics_meta.filter fun r => r.statistic_id == name).length = 1
  · rw [if_pos (by simpa using h1)] at h
    rw [if_neg (by simp [h1]), if_neg (by simp [h1]), h]
  · rw [if_neg (by simpa using h1)] at h
    cases h

/-- With no matching metadata row, the lookup logs the not-found error and
returns `None`. -/
theorem query_eq_of_nomatch (name : String) (s : ExecState)
    (h : s.db.statistics_meta.filter (fun r => r.statistic_id == name) = []) :
    query_statistics_sensor_id name s = (addLog s (.sensorNotFound name), none) := by
  unfold query_statistics_sensor_id
  simp [h]

/-- With more than one matching metadata row, the lookup logs the
ambiguous-name error and returns `None`. -/
theorem query_eq_of_multiple (name : String) (s : ExecState)
    (h : 1 < (s.db.statistics_meta.filter fun r => r.statistic_id == name).length) :
    query_statistics_sensor_id name s = (addLog s (.multipleSensors name), none) := by
  unfold query_statistics_sensor_id
  rw [if_neg (by simp only [beq_iff_eq]; omega), if_pos h]

/-! ### The behaviour of merge_check_single_sensor once both names resolve -/

/-- Unfolding of `merge_check_single_sensor` under the hypothesis that both
names resolve: the body after the two lookups, written out explicitly. -/
theorem merge_check_resolved (oldName newName : String) (oldId newId : Nat)
    (dry : Bool) (s : ExecState)
    (h1 : resolveId s.db oldName = some oldId)
    (h2 : resolveId s.db newName = some newId) :
    merge_check_single_sensor oldName newName dry s =
      (let s1 := addLog (addLog s (.oldSensorIdMsg oldId)) (.newSensorIdMsg newId)
       if oldId = newId then .ok (addLog s1 (.sameId oldId))
       else
         match lastByCreated s.db.statistics oldId with
         | none => .exn s1
         | some (oc, os) =>
           match firstByCreated s.db.statistics newId with
           | none => .exn s1
           | some (nc, ns) =>
             if nc < oc then .ok (addLog s1 (.firstCreatedOlder nc newName oc oldName))
             else if nc = oc then .ok (addLog s1 (.firstCreatedEqual nc newName oc oldName))
             else if ns < os then .ok (addLog s1 (.firstStartOlder ns newName os oldName))
             else if ns = os then .ok (addLog s1 (.firstStartEqual ns newName os oldName))
             else
               let s2 := addLog s1 .checksPassed
               let s3 := (exec_modify dry (.updateSample .statistics newId oldId)
                 (addLog s2 (.assignTable .statistics))).1
               let s4 := (exec_modify dry (.updateSample .statistics_short_term newId oldId)
                 (addLog s3 (.assignTable .statistics_short_term))).1
               if dry then .ok (addLog s4 .dryRunSummary) else .ok (addLog s4 .allAssigned)) := by
  have e1 : query_statistics_sensor_id oldName s = (s, some oldId) :=
    query_eq_of_resolve oldName s oldId h1
  have e2 : query_statistics_sensor_id newName (addLog s (.oldSensorIdMsg oldId)) =
      (addLog s (.oldSensorIdMsg oldId), some newId) :=
    query_eq_of_resolve newName (addLog s (.oldSensorIdMsg oldId)) newId h2
  unfold merge_check_single_sensor
  rw [e1]
  simp only []
  rw [e2]
  simp only [beq_iff_eq, addLog_db, List.foldl_cons, List.foldl_nil]

/-- When the lookup finds exactly one row, the query returns its id with
the state untouched. -/
theorem query_eq_of_single (name : String) (s : ExecState) (r : MetaRow)
    (h : s.db.statistics_meta.filter (fun r => r.statistic_id == name) = [r]) :
    query_statistics_sensor_id name s = (s, some r.id) := by
  simp [query_statistics_sensor_id, h]

/-- When the pure lookup fails, the query logs one error line (not-found
or ambiguous) and returns `None`. -/
theorem query_eq_of_resolve_none (name : String) (s : ExecState)
    (h : resolveId s.db name = none) :
    ∃ e : LogEntry, query_statistics_sensor_id name s = (addLog s e, none) ∧
      LogEntry.level e = .error := by
  unfold resolveId at h
  by_cases h1 : (s.db.statistics_meta.filter fun r => r.statistic_id == name).length = 1
  · exfalso
    rw [if_pos (by simpa using h1)] at h
    obtain ⟨a, ha⟩ := List.length_eq_one.mp h1
    rw [ha] at h
    simp at h
  · by_cases h0 : (s.db.statistics_meta.filter fun r => r.statistic_id == name).length = 0
    · exact ⟨.sensorNotFound name, query_eq_of_nomatch name s (List.length_eq_zero.mp h0), rfl⟩
    · exact ⟨.multipleSensors name, query_eq_of_multiple name s (by omega), rfl⟩

/-- The lookup never mutates the database, never issues a write statement
and never prints. -/
theorem query_preserves (name : String) (s : ExecState) :
    (query_statistics_sensor_id name s).1.db = s.db ∧
    (query_statistics_sensor_id name s).1.calls = s.calls ∧
    (query_statistics_sensor_id name s).1.stdout = s.stdout := by
  unfold query_statistics_sensor_id
  dsimp only
  split
  · exact ⟨rfl, rfl, rfl⟩
  · split
    · exact ⟨rfl, rfl, rfl⟩
    · exact ⟨rfl, rfl, rfl⟩

/-! ### Lemmas about the extremum queries -/

/-- A sensor with no `statistics` row: the DESC/LIMIT-1 query returns no
row (`fetchone()` is `None`). -/
theorem lastByCreated_eq_none (rows : List StatRow) (id : Nat)
    (h : rows.filter (fun r => r.metadata_id == some id) = []) :
    lastByCreated rows id = none := by
  unfold lastByCreated
  rw [h]
  rfl

/-- Same for the ASC/LIMIT-1 query. -/
theorem firstByCreated_eq_none (rows : List StatRow) (id : Nat)
    (h : rows.filter (fun r => r.metadata_id == some id) = []) :
    firstByCreated rows id = none := by
  unfold firstByCreated
  rw [h]
  rfl

/-! ### Frame lemmas for the write statements -/

@[simp] theorem setSample_statistics_meta (db : DB) (t : SampleTable) (rows : List StatRow) :
    (db.setSample t rows).statistics_meta = db.statistics_meta := by cases t <;> rfl

@[simp] theorem setSample_states_meta (db : DB) (t : SampleTable) (rows : List StatRow) :
    (db.setSample t rows).states_meta = db.states_meta := by cases t <;> rfl

@[simp] theorem setSample_states (db : DB) (t : SampleTable) (rows : List StatRow) :
    (db.setSample t rows).states = db.states := by cases t <;> rfl

/-- The plain sample-table UPDATE of `merge_check_single_sensor` touches
neither metadata table nor the `states` table. -/
theorem applyStmt_updateSample_frame (t : SampleTable) (a b : Nat) (db : DB) :
    (applyStmt (.updateSample t a b) db).statistics_meta = db.statistics_meta ∧
    (applyStmt (.updateSample t a b) db).states_meta = db.states_meta ∧
    (applyStmt (.updateSample t a b) db).states = db.states := by
  unfold applyStmt
  exact ⟨by simp, by simp, by simp⟩

/-! ### Concrete databases for the witnesses -/

/-- Two sensors `a` (id 5) and `b` (id 9); `a`'s latest `statistics` row is
(110, 95), `b`'s earliest is (200, 190). -/
def dbTwoSensors : DB :=
  { statistics_meta := [{ id := 5, statistic_id := "a" }, { id := 9, statistic_id := "b" }],
    states_meta := [],
    statistics := [{ metadata_id := some 5, created_ts := 100, start_ts := 90 },
      { metadata_id := some 5, created_ts := 110, start_ts := 95 },
      { metadata_id := some 9, created_ts := 200, start_ts := 190 }],
    statistics_short_term := [], states := [] }

/-- Two names `a` and `b` resolving to the same id 7. -/
def dbSameId : DB :=
  { statistics_meta := [{ id := 7, statistic_id := "a" }, { id := 7, statistic_id := "b" }],
    states_meta := [], statistics := [], statistics_short_term := [], states := [] }

/-- Sensors `a` (id 5, one sample row) and `b` (id 9, no sample rows). -/
def dbNoRows : DB :=
  { statistics_meta := [{ id := 5, statistic_id := "a" }, { id := 9, statistic_id := "b" }],
    states_meta := [],
    statistics := [{ metadata_id := some 5, created_ts := 100, start_ts := 90 }],
    statistics_short_term := [], states := [] }

/-! ### Claims -/

/-- C3: for every sensor name, `query_statistics_sensor_id` returns the
numeric identifier iff exactly one `statistics_meta` row's name column
equals the name exactly; with zero matching rows it logs an error and
returns the not-found outcome, with two or more a distinct ambiguous
outcome, in both failure cases performing no writes and returning normally
rather than raising. -/
theorem query_statistics_sensor_id_contract (name : String) (s : ExecState) :
    ((query_statistics_sensor_id name s).2.isSome ↔
      (s.db.statistics_meta.filter fun r => r.statistic_id == name).length = 1) ∧
    ((s.db.statistics_meta.filter fun r => r.statistic_id == name) = [] →
      query_statistics_sensor_id name s = (addLog s (.sensorNotFound name), none)) ∧
    (1 < (s.db.statistics_meta.filter fun r => r.statistic_id == name).length →
      query_statistics_sensor_id name s = (addLog s (.multipleSensors name), none)) ∧
    (∀ r : MetaRow, (s.db.statistics_meta.filter fun r => r.statistic_id == name) = [r] →
      query_statistics_sensor_id name s = (s, some r.id)) ∧
    (query_statistics_sensor_id name s).1.db = s.db ∧
    (query_statistics_sensor_id name s).1.calls = s.calls ∧
    LogEntry.level (.sensorNotFound name) = .error ∧
    LogEntry.level (.multipleSensors name) = .error ∧
    LogEntry.sensorNotFound name ≠ LogEntry.multipleSensors name := by
  refine ⟨?_, query_eq_of_nomatch name s, query_eq_of_multiple name s,
    fun r hr => query_eq_of_single name s r hr,
    (query_preserves name s).1, (query_preserves name s).2.1, rfl, rfl, by simp⟩
  by_cases h1 : (s.db.statistics_meta.filter fun r => r.statistic_id == name).length = 1
  · obtain ⟨a, ha⟩ := List.length_eq_one.mp h1
    rw [query_eq_of_single name s a ha]
    simp [h1]
  · have hn : resolveId s.db name = none := by
      unfold resolveId
      rw [if_neg (by simpa using h1)]
    obtain ⟨e, he, _⟩ := query_eq_of_resolve_none name s hn
    rw [he]
    simp [h1]

/-- Witness for C3: on `dbSameId`, looking up the absent name `missing`
yields the not-found outcome. -/
theorem query_statistics_sensor_id_contract_witness :
    query_statistics_sensor_id "missing" (initState dbSameId) =
      (addLog (initState dbSameId) (.sensorNotFound "missing"), none) :=
  (query_statistics_sensor_id_contract "missing" (initState dbSameId)).2.1 (by decide)

/-- C4: whenever both sensor names resolve to the same numeric id,
`merge_check_single_sensor` logs the same-id error and returns with zero
write statements issued. -/
theorem merge_check_same_id_aborts (oldName newName : String) (id : Nat)
    (dry : Bool) (s : ExecState)
    (h1 : resolveId s.db oldName = some id)
    (h2 : resolveId s.db newName = some id) :
    merge_check_single_sensor oldName newName dry s =
      .ok (addLog (addLog (addLog s (.oldSensorIdMsg id)) (.newSensorIdMsg id)) (.sameId id)) ∧
    (merge_check_single_sensor oldName newName dry s).state.calls = s.calls ∧
    (merge_check_single_sensor oldName newName dry s).state.db = s.db ∧
    LogEntry.level (.sameId id) = .error := by
  rw [merge_check_resolved oldName newName id id dry s h1 h2]
  refine ⟨by simp, by simp [PyResult.state], by simp [PyResult.state], rfl⟩

/-- Witness for C4: on `dbSameId`, names `a` and `b` both resolve to id 7
and the checked merge aborts with the same-id error. -/
theorem merge_check_same_id_aborts_witness :
    merge_check_single_sensor "a" "b" true (initState dbSameId) =
      .ok (addLog (addLog (addLog (initState dbSameId) (.oldSensorIdMsg 7))
        (.newSensorIdMsg 7)) (.sameId 7)) ∧
    (merge_check_single_sensor "a" "b" true (initState dbSameId)).state.calls =
      (initState dbSameId).calls ∧
    (merge_check_single_sensor "a" "b" true (initState dbSameId)).state.db =
      (initState dbSameId).db ∧
    LogEntry.level (.sameId 7) = .error :=
  merge_check_same_id_aborts "a" "b" 7 true (initState dbSameId) (by decide) (by decide)

/-- C5 (amended): `exec_modify` always returns `None` — in live mode it
prints the affected-row count to stdout (surfacing it to the operator via
`print`, not via its return value), in dry-run mode it prints nothing, and
the dry-run return value does not differ from the live one. -/
theorem exec_modify_return_behavior (dry : Bool) (stmt : Stmt) (s : ExecState) :
    (exec_modify dry stmt s).2 = none ∧
    (exec_modify false stmt s).1.stdout = s.stdout ++ [rowcountStmt stmt s.db] ∧
    (exec_modify true stmt s).1.stdout = s.stdout ∧
    (exec_modify true stmt s).2 = (exec_modify false stmt s).2 := by
  cases dry <;> simp [exec_modify]

/-- Counterexample for C5: a live-mode `UPDATE statistics` affecting 2 rows
returns `None`, not the row count 2 (which is printed to stdout), and the
dry-run return value is not distinguishable from the live one. -/
theorem exec_modify_return_counterexample :
    (exec_modify false (.updateSample .statistics 9 5) (initState dbTwoSensors)).2 ≠
      some (rowcountStmt (.updateSample .statistics 9 5) dbTwoSensors) ∧
    rowcountStmt (.updateSample .statistics 9 5) dbTwoSensors = 2 ∧
    (exec_modify false (.updateSample .statistics 9 5) (initState dbTwoSensors)).1.stdout = [2] ∧
    (exec_modify true (.updateSample .statistics 9 5) (initState dbTwoSensors)).2 =
      (exec_modify false (.updateSample .statistics 9 5) (initState dbTwoSensors)).2 := by
  decide

/-- C10: when both names resolve to distinct ids but either sensor has no
row in the `statistics` table, `merge_check_single_sensor` raises an
uncaught exception (unpacking the `None` returned by `fetchone()`) instead
of logging an error and aborting gracefully; no write is issued before the
raise. -/
theorem merge_check_raises_on_empty_sensor (oldName newName : String) (oldId newId : Nat)
    (dry : Bool) (s : ExecState)
    (h1 : resolveId s.db oldName = some oldId)
    (h2 : resolveId s.db newName = some newId)
    (h3 : oldId ≠ newId)
    (h4 : s.db.statistics.filter (fun r => r.metadata_id == some oldId) = [] ∨
          s.db.statistics.filter (fun r => r.metadata_id == some newId) = []) :
    (merge_check_single_sensor oldName newName dry s).raised = true ∧
    (merge_check_single_sensor oldName newName dry s).state.calls = s.calls := by
  rw [merge_check_resolved oldName newName oldId newId dry s h1 h2]
  simp only [if_neg h3]
  rcases h4 with h4 | h4
  · rw [lastByCreated_eq_none s.db.statistics oldId h4]
    exact ⟨rfl, by simp [PyResult.state]⟩
  · rcases hl : lastByCreated s.db.statistics oldId with _ | ⟨oc, os⟩
    · exact ⟨rfl, by simp [PyResult.state]⟩
    · rw [firstByCreated_eq_none s.db.statistics newId h4]
      exact ⟨rfl, by simp [PyResult.state]⟩

/-- Witness for C10: on `dbNoRows`, sensor `b` exists in metadata but has
no sample rows, and the checked merge raises. -/
theorem merge_check_raises_on_empty_sensor_witness :
    (merge_check_single_sensor "a" "b" true (initState dbNoRows)).raised = true ∧
    (merge_check_single_sensor "a" "b" true (initState dbNoRows)).state.calls =
      (initState dbNoRows).calls :=
  merge_check_raises_on_empty_sensor "a" "b" 5 9 true (initState dbNoRows)
    (by decide) (by decide) (by decide) (Or.inr (by decide))

/-- C1: once both sensors resolve to distinct ids and each has at least one
`statistics` row, `merge_check_single_sensor` issues the two sample-table
UPDATE statements iff the new sensor's earliest row is strictly later than
the old sensor's latest row on both `created_ts` and `start_ts`; any
less-than or equal comparison logs one error (distinct messages for the
equal and the older case) and issues zero writes. -/
theorem merge_check_ordering_gate (oldName newName : String) (oldId newId : Nat)
    (oc os nc ns : Int) (dry : Bool) (s : ExecState)
    (h1 : resolveId s.db oldName = some oldId)
    (h2 : resolveId s.db newName = some newId)
    (h3 : oldId ≠ newId)
    (h4 : lastByCreated s.db.statistics oldId = some (oc, os))
    (h5 : firstByCreated s.db.statistics newId = some (nc, ns)) :
    ((merge_check_single_sensor oldName newName dry s).state.calls =
        s.calls ++ [.updateSample .statistics newId oldId,
                    .updateSample .statistics_short_term newId oldId] ↔ (oc < nc ∧ os < ns)) ∧
    (nc < oc → merge_check_single_sensor oldName newName dry s =
      .ok (addLog (addLog (addLog s (.oldSensorIdMsg oldId)) (.newSensorIdMsg newId))
        (.firstCreatedOlder nc newName oc oldName))) ∧
    (nc = oc → merge_check_single_sensor oldName newName dry s =
      .ok (addLog (addLog (addLog s (.oldSensorIdMsg oldId)) (.newSensorIdMsg newId))
        (.firstCreatedEqual nc newName oc oldName))) ∧
    (oc < nc → ns < os → merge_check_single_sensor oldName newName dry s =
      .ok (addLog (addLog (addLog s (.oldSensorIdMsg oldId)) (.newSensorIdMsg newId))
        (.firstStartOlder ns newName os oldName))) ∧
    (oc < nc → ns = os → merge_check_single_sensor oldName newName dry s =
      .ok (addLog (addLog (addLog s (.oldSensorIdMsg oldId)) (.newSensorIdMsg newId))
        (.firstStartEqual ns newName os oldName))) ∧
    (¬(oc < nc ∧ os < ns) →
      (merge_check_single_sensor oldName newName dry s).state.calls = s.calls) ∧
    LogEntry.level (.firstCreatedOlder nc newName oc oldName) = .error ∧
    LogEntry.level (.firstCreatedEqual nc newName oc oldName) = .error ∧
    LogEntry.level (.firstStartOlder ns newName os oldName) = .error ∧
    LogEntry.level (.firstStartEqual ns newName os oldName) = .error ∧
    LogEntry.firstCreatedOlder nc newName oc oldName ≠
      LogEntry.firstCreatedEqual nc newName oc oldName ∧
    LogEntry.firstStartOlder ns newName os oldName ≠
      LogEntry.firstStartEqual ns newName os oldName := by
  rw [merge_check_resolved oldName newName oldId newId dry s h1 h2]
  simp only [if_neg h3, h4, h5]
  split_ifs with hA hB hC hD hE
  · refine ⟨iff_of_false (by simp [PyResult.state]) (fun h => by omega), fun _ => rfl,
      fun h => absurd hA (by omega), fun h _ => absurd hA (by omega),
      fun h _ => absurd hA (by omega), fun _ => by simp [PyResult.state],
      rfl, rfl, rfl, rfl, by simp, by simp⟩
  · refine ⟨iff_of_false (by simp [PyResult.state]) (fun h => by omega),
      fun h => absurd h hA, fun _ => rfl, fun h _ => absurd hB (by omega),
      fun h _ => absurd hB (by omega), fun _ => by simp [PyResult.state],
      rfl, rfl, rfl, rfl, by simp, by simp⟩
  · refine ⟨iff_of_false (by simp [PyResult.state]) (fun h => by omega),
      fun h => absurd h hA, fun h => absurd h hB, fun _ _ => rfl,
      fun _ h => absurd hC (by omega), fun _ => by simp [PyResult.state],
      rfl, rfl, rfl, rfl, by simp, by simp⟩
  · refine ⟨iff_of_false (by simp [PyResult.state]) (fun h => by omega),
      fun h => absurd h hA, fun h => absurd h hB, fun _ h => absurd h hC,
      fun _ _ => rfl, fun _ => by simp [PyResult.state],
      rfl, rfl, rfl, rfl, by simp, by simp⟩
  · refine ⟨iff_of_true (by simp [PyResult.state, exec_modify, hE]) ⟨by omega, by omega⟩,
      fun h => absurd h hA, fun h => absurd h hB, fun _ h => absurd h hC,
      fun _ h => absurd h hD, fun h => absurd ⟨by omega, by omega⟩ h,
      rfl, rfl, rfl, rfl, by simp, by simp⟩
  · refine ⟨iff_of_true (by simp [PyResult.state, exec_modify, hE]) ⟨by omega, by omega⟩,
      fun h => absurd h hA, fun h => absurd h hB, fun _ h => absurd h hC,
      fun _ h => absurd h hD, fun h => absurd ⟨by omega, by omega⟩ h,
      rfl, rfl, rfl, rfl, by simp, by simp⟩

/-- Witness for C1: on `dbTwoSensors` the ordering holds (110 < 200 and
95 < 190) and both sample-table UPDATE statements are issued. -/
theorem merge_check_ordering_gate_witness :
    (merge_check_single_sensor "a" "b" true (initState dbTwoSensors)).state.calls =
      (initState dbTwoSensors).calls ++
        [.updateSample .statistics 9 5, .updateSample .statistics_short_term 9 5] :=
  (merge_check_ordering_gate "a" "b" 5 9 110 95 200 190 true (initState dbTwoSensors)
    (by decide) (by decide) (by decide) (by decide) (by decide)).1.mpr (by decide)

/-- A duplicate pair `sensor.foo` (id 1) / `sensor.foo_2` (id 2) with rows
in every table. -/
def dbDup : DB :=
  { statistics_meta := [{ id := 1, statistic_id := "sensor.foo" },
      { id := 2, statistic_id := "sensor.foo_2" }],
    states_meta := [{ metadata_id := 11, entity_id := "sensor.foo" },
      { metadata_id := 12, entity_id := "sensor.foo_2" }],
    statistics := [{ metadata_id := some 2, created_ts := 100, start_ts := 90 }],
    statistics_short_term := [{ metadata_id := some 2, created_ts := 100, start_ts := 90 }],
    states := [{ metadata_id := some 12 }] }

/-! ### Frame lemmas for merge_single's statements -/

@[simp] theorem applyStmt_uoiSample_meta (t : SampleTable) (o n : String) (db : DB) :
    (applyStmt (.updateOrIgnoreSample t o n) db).statistics_meta = db.statistics_meta := by
  unfold applyStmt
  rcases h : statsMetaLookup1 db n with _ | oldId <;> simp [h]

@[simp] theorem applyStmt_uoiStates_meta (o n : String) (db : DB) :
    (applyStmt (.updateOrIgnoreStates o n) db).statistics_meta = db.statistics_meta := by
  unfold applyStmt
  rcases h : statesMetaLookup1 db n with _ | oldId <;> simp [h]

@[simp] theorem applyStmt_deleteStatesMeta_stats_meta (n : String) (db : DB) :
    (applyStmt (.deleteStatesMeta n) db).statistics_meta = db.statistics_meta := rfl

theorem applyStmt_deleteStatisticsMeta_meta (n : String) (db : DB) :
    (applyStmt (.deleteStatisticsMeta n) db).statistics_meta =
      db.statistics_meta.filter fun r => !(r.statistic_id == n) := rfl

/-! ### Helper lemmas on name filters -/

/-- A string `a` is never equal to `a ++ "_2"`. -/
theorem ne_append_suffix (a : String) : a ≠ a ++ "_2" := by
  intro h
  have hl := congrArg String.length h
  rw [String.length_append] at hl
  have h2 : String.length "_2" = 2 := rfl
  omega

/-- Deleting rows named `b` does not change the rows named `a` when `a ≠ b`. -/
theorem filter_name_filter_out (l : List MetaRow) (a b : String) (hab : a ≠ b) :
    ((l.filter fun r => !(r.statistic_id == b)).filter fun r => r.statistic_id == a) =
      l.filter fun r => r.statistic_id == a := by
  induction l with
  | nil => rfl
  | cons r t ih =>
    by_cases hb : r.statistic_id = b
    · have ha : ¬(r.statistic_id = a) := fun ha => hab (ha.symm.trans hb)
      simp [List.filter_cons, hb, ha, hab, Ne.symm hab, ih]
    · by_cases ha : r.statistic_id = a <;>
        simp [List.filter_cons, hb, ha, hab, Ne.symm hab, ih]

/-- After deleting rows named `b`, no row named `b` remains. -/
theorem filter_name_filter_out_self (l : List MetaRow) (b : String) :
    ((l.filter fun r => !(r.statistic_id == b)).filter fun r => r.statistic_id == b) = [] := by
  induction l with
  | nil => rfl
  | cons r t ih => by_cases hb : r.statistic_id = b <;> simp [List.filter_cons, hb, ih]

/-! ### merge_single_sensor claims -/

/-- C9: whenever `merge_single_sensor` passes its precondition checks,
it issues exactly five write statements in this fixed order: UPDATE OR
IGNORE on `statistics`, UPDATE OR IGNORE on `statistics_short_term`,
DELETE from `statistics_meta`, UPDATE OR IGNORE on `states`, DELETE from
`states_meta`. -/
theorem merge_single_write_order (original : String) (i j : Nat) (dry : Bool) (s : ExecState)
    (h0 : strEndsWith original "_2" = false)
    (h1 : resolveId s.db original = some i)
    (h2 : resolveId s.db (original ++ "_2") = some j) :
    (merge_single_sensor original dry s).calls =
      s.calls ++ [.updateOrIgnoreSample .statistics original (original ++ "_2"),
                  .updateOrIgnoreSample .statistics_short_term original (original ++ "_2"),
                  .deleteStatisticsMeta (original ++ "_2"),
                  .updateOrIgnoreStates original (original ++ "_2"),
                  .deleteStatesMeta (original ++ "_2")] := by
  have e1 := query_eq_of_resolve original s i h1
  have e2 := query_eq_of_resolve (original ++ "_2") s j h2
  unfold merge_single_sensor
  simp only [h0, Bool.false_eq_true, if_false, e1, e2]
  cases dry <;> simp [exec_modify]

/-- Witness for C9: on `dbDup` the five statements are issued in order. -/
theorem merge_single_write_order_witness :
    (merge_single_sensor "sensor.foo" true (initState dbDup)).calls =
      (initState dbDup).calls ++
        [.updateOrIgnoreSample .statistics "sensor.foo" ("sensor.foo" ++ "_2"),
         .updateOrIgnoreSample .statistics_short_term "sensor.foo" ("sensor.foo" ++ "_2"),
         .deleteStatisticsMeta ("sensor.foo" ++ "_2"),
         .updateOrIgnoreStates "sensor.foo" ("sensor.foo" ++ "_2"),
         .deleteStatesMeta ("sensor.foo" ++ "_2")] :=
  merge_single_write_order "sensor.foo" 1 2 true (initState dbDup)
    (by decide) (by decide) (by decide)

/-- A successful live `merge_single_sensor` run deletes exactly the
duplicate's rows from `statistics_meta`. -/
theorem merge_single_live_meta (original : String) (i j : Nat) (s : ExecState)
    (h0 : strEndsWith original "_2" = false)
    (h1 : resolveId s.db original = some i)
    (h2 : resolveId s.db (original ++ "_2") = some j) :
    (merge_single_sensor original false s).db.statistics_meta =
      s.db.statistics_meta.filter fun r => !(r.statistic_id == (original ++ "_2")) := by
  have e1 := query_eq_of_resolve original s i h1
  have e2 := query_eq_of_resolve (original ++ "_2") s j h2
  unfold merge_single_sensor
  simp only [h0, Bool.false_eq_true, if_false, e1, e2]
  simp [exec_modify, applyStmt_deleteStatisticsMeta_meta]

/-- C7: after a successful live `merge_single_sensor` run, a second run on
the same base name warns that the duplicate does not exist, issues zero
write statements, leaves the database unchanged and returns normally. -/
theorem merge_single_idempotent (original : String) (i j : Nat) (dry : Bool) (s : ExecState)
    (h0 : strEndsWith original "_2" = false)
    (h1 : resolveId s.db original = some i)
    (h2 : resolveId s.db (original ++ "_2") = some j) :
    merge_single_sensor original dry (merge_single_sensor original false s) =
      addLog (addLog (merge_single_sensor original false s)
        (.sensorNotFound (original ++ "_2"))) (.doesNotExist (original ++ "_2")) ∧
    (merge_single_sensor original dry (merge_single_sensor original false s)).db =
      (merge_single_sensor original false s).db ∧
    (merge_single_sensor original dry (merge_single_sensor original false s)).calls =
      (merge_single_sensor original false s).calls ∧
    LogEntry.level (.doesNotExist (original ++ "_2")) = .warning := by
  have hmeta := merge_single_live_meta original i j s h0 h1 h2
  have hro : resolveId (merge_single_sensor original false s).db original = some i := by
    unfold resolveId at h1 ⊢
    rw [hmeta, filter_name_filter_out _ _ _ (ne_append_suffix original)]
    exact h1
  have hrs2 : (merge_single_sensor original false s).db.statistics_meta.filter
      (fun r => r.statistic_id == (original ++ "_2")) = [] := by
    rw [hmeta]
    exact filter_name_filter_out_self _ _
  set M := merge_single_sensor original false s with hM
  have e1 := query_eq_of_resolve original M i hro
  have e2 := query_eq_of_nomatch (original ++ "_2") M hrs2
  have main : merge_single_sensor original dry M =
      addLog (addLog M (.sensorNotFound (original ++ "_2")))
        (.doesNotExist (original ++ "_2")) := by
    conv_lhs => unfold merge_single_sensor
    simp only [h0, Bool.false_eq_true, if_false, e1, e2]
  exact ⟨main, by rw [main]; rfl, by rw [main]; rfl, rfl⟩

/-- Witness for C7: on `dbDup`, a second run after the successful live
run warns and leaves everything unchanged. -/
theorem merge_single_idempotent_witness :
    merge_single_sensor "sensor.foo" true
        (merge_single_sensor "sensor.foo" false (initState dbDup)) =
      addLog (addLog (merge_single_sensor "sensor.foo" false (initState dbDup))
        (.sensorNotFound ("sensor.foo" ++ "_2"))) (.doesNotExist ("sensor.foo" ++ "_2")) ∧
    (merge_single_sensor "sensor.foo" true
        (merge_single_sensor "sensor.foo" false (initState dbDup))).db =
      (merge_single_sensor "sensor.foo" false (initState dbDup)).db ∧
    (merge_single_sensor "sensor.foo" true
        (merge_single_sensor "sensor.foo" false (initState dbDup))).calls =
      (merge_single_sensor "sensor.foo" false (initState dbDup)).calls ∧
    LogEntry.level (.doesNotExist ("sensor.foo" ++ "_2")) = .warning :=
  merge_single_idempotent "sensor.foo" 1 2 true (initState dbDup)
    (by decide) (by decide) (by decide)

/-! ### Frame lemmas for the plain sample-table UPDATE -/

@[simp] theorem applyStmt_updateSample_meta (t : SampleTable) (a b : Nat) (db : DB) :
    (applyStmt (.updateSample t a b) db).statistics_meta = db.statistics_meta := by
  unfold applyStmt
  simp

@[simp] theorem applyStmt_updateSample_states_meta (t : SampleTable) (a b : Nat) (db : DB) :
    (applyStmt (.updateSample t a b) db).states_meta = db.states_meta := by
  unfold applyStmt
  simp

@[simp] theorem applyStmt_updateSample_states (t : SampleTable) (a b : Nat) (db : DB) :
    (applyStmt (.updateSample t a b) db).states = db.states := by
  unfold applyStmt
  simp

/-- C8: `merge_check_single_sensor` issues write statements only against
the two sample tables: in every outcome the metadata tables and the
`states` table are unchanged (in particular the old sensor's metadata row
still exists after a successful run), and every statement passed to the
executor is a sample-table UPDATE. -/
theorem merge_check_frame (oldName newName : String) (dry : Bool) (s : ExecState) :
    (merge_check_single_sensor oldName newName dry s).state.db.statistics_meta =
      s.db.statistics_meta ∧
    (merge_check_single_sensor oldName newName dry s).state.db.states_meta =
      s.db.states_meta ∧
    (merge_check_single_sensor oldName newName dry s).state.db.states = s.db.states ∧
    ∃ l : List Stmt, (merge_check_single_sensor oldName newName dry s).state.calls =
      s.calls ++ l ∧ l.all Stmt.isSampleUpdate = true := by
  rcases hr1 : resolveId s.db oldName with _ | oldId
  · obtain ⟨e, he, _⟩ := query_eq_of_resolve_none oldName s hr1
    unfold merge_check_single_sensor
    rw [he]
    exact ⟨rfl, rfl, rfl, [], by simp [PyResult.state], rfl⟩
  · rcases hr2 : resolveId s.db newName with _ | newId
    · obtain ⟨e2, he2, _⟩ :=
        query_eq_of_resolve_none newName (addLog s (.oldSensorIdMsg oldId)) hr2
      unfold merge_check_single_sensor
      rw [query_eq_of_resolve oldName s oldId hr1]
      simp only []
      rw [he2]
      exact ⟨rfl, rfl, rfl, [], by simp [PyResult.state], rfl⟩
    · rw [merge_check_resolved oldName newName oldId newId dry s hr1 hr2]
      by_cases h3 : oldId = newId
      · simp only [if_pos h3]
        exact ⟨rfl, rfl, rfl, [], by simp [PyResult.state], rfl⟩
      · simp only [if_neg h3]
        rcases hl : lastByCreated s.db.statistics oldId with _ | ⟨oc, os⟩
        · exact ⟨rfl, rfl, rfl, [], by simp [PyResult.state], rfl⟩
        · rcases hf : firstByCreated s.db.statistics newId with _ | ⟨nc, ns⟩
          · exact ⟨rfl, rfl, rfl, [], by simp [PyResult.state], rfl⟩
          · dsimp only
            split_ifs with hA hB hC hD hE
            · exact ⟨rfl, rfl, rfl, [], by simp [PyResult.state], rfl⟩
            · exact ⟨rfl, rfl, rfl, [], by simp [PyResult.state], rfl⟩
            · exact ⟨rfl, rfl, rfl, [], by simp [PyResult.state], rfl⟩
            · exact ⟨rfl, rfl, rfl, [], by simp [PyResult.state], rfl⟩
            · refine ⟨by simp [PyResult.state, exec_modify, hE],
                by simp [PyResult.state, exec_modify, hE],
                by simp [PyResult.state, exec_modify, hE],
                [.updateSample .statistics newId oldId,
                 .updateSample .statistics_short_term newId oldId],
                by simp [PyResult.state, exec_modify, hE], rfl⟩
            · refine ⟨by simp [PyResult.state, exec_modify, hE],
                by simp [PyResult.state, exec_modify, hE],
                by simp [PyResult.state, exec_modify, hE],
                [.updateSample .statistics newId oldId,
                 .updateSample .statistics_short_term newId oldId],
                by simp [PyResult.state, exec_modify, hE], rfl⟩

/-! ### Dry-run preservation lemmas -/

/-- Appending log lines never changes the database. -/
theorem foldl_addLog_db (f : String → LogEntry) (l : List String) (s : ExecState) :
    (l.foldl (fun s n => addLog s (f n)) s).db = s.db := by
  induction l generalizing s with
  | nil => rfl
  | cons n t ih =>
    simp only [List.foldl_cons]
    rw [ih]
    rfl

/-- Function `list_all_sensors` only reads and logs. -/
theorem list_all_sensors_db (s : ExecState) : (list_all_sensors s).db = s.db := by
  unfold list_all_sensors
  exact foldl_addLog_db _ _ _

/-- In dry-run mode `merge_single_sensor` never changes the database. -/
theorem merge_single_dry_db (n : String) (s : ExecState) :
    (merge_single_sensor n true s).db = s.db := by
  unfold merge_single_sensor
  dsimp only
  split
  · rfl
  · rcases hq1 : query_statistics_sensor_id n s with ⟨s1, id1⟩
    have hdb1 : s1.db = s.db := by
      have := (query_preserves n s).1
      rw [hq1] at this
      exact this
    rcases id1 with _ | i
    · exact hdb1
    · dsimp only
      rcases hq2 : query_statistics_sensor_id (n ++ "_2") s1 with ⟨s2, id2⟩
      have hdb2 : s2.db = s1.db := by
        have := (query_preserves (n ++ "_2") s1).1
        rw [hq2] at this
        exact this
      rcases id2 with _ | j
      · exact hdb2.trans hdb1
      · dsimp only
        simp [exec_modify, hdb2, hdb1]

/-- The candidate-collection loop of `merge_all_sensors` only logs. -/
theorem merge_all_collect_db (names : List String) :
    ∀ s : ExecState, (merge_all_collect names s).1.db = s.db := by
  induction names with
  | nil => intro s; rfl
  | cons n t ih =>
    intro s
    unfold merge_all_collect
    dsimp only
    split
    · exact ih _
    · exact ih _

/-- In dry-run mode `merge_all_sensors` never changes the database. -/
theorem merge_all_dry_db (s : ExecState) : (merge_all_sensors true s).db = s.db := by
  unfold merge_all_sensors
  dsimp only
  have hfold : ∀ (l : List String) (t : ExecState),
      (l.foldl (fun t n => merge_single_sensor n true t) t).db = t.db := by
    intro l
    induction l with
    | nil => intro t; rfl
    | cons n l ih =>
      intro t
      simp only [List.foldl_cons]
      rw [ih, merge_single_dry_db]
  rw [hfold]
  exact merge_all_collect_db _ _

/-- In dry-run mode `merge_check_single_sensor` never changes the database. -/
theorem merge_check_dry_db (o n : String) (s : ExecState) :
    (merge_check_single_sensor o n true s).state.db = s.db := by
  rcases hr1 : resolveId s.db o with _ | oldId
  · obtain ⟨e, he, _⟩ := query_eq_of_resolve_none o s hr1
    unfold merge_check_single_sensor
    rw [he]
    rfl
  · rcases hr2 : resolveId s.db n with _ | newId
    · obtain ⟨e2, he2, _⟩ :=
        query_eq_of_resolve_none n (addLog s (.oldSensorIdMsg oldId)) hr2
      unfold merge_check_single_sensor
      rw [query_eq_of_resolve o s oldId hr1]
      simp only []
      rw [he2]
      rfl
    · rw [merge_check_resolved o n oldId newId true s hr1 hr2]
      by_cases h3 : oldId = newId
      · simp only [if_pos h3]
        rfl
      · simp only [if_neg h3]
        rcases hl : lastByCreated s.db.statistics oldId with _ | ⟨oc, os⟩
        · rfl
        · rcases hf : firstByCreated s.db.statistics newId with _ | ⟨nc, ns⟩
          · rfl
          · dsimp only
            split_ifs with hA hB hC hD
            · rfl
            · rfl
            · rfl
            · rfl
            · simp [PyResult.state, exec_modify]

/-- C2: with the dry-run flag set, any sequence of subcommand invocations
leaves the database exactly as it was, while every statement passed to
`exec_modify` is still logged together with its parameters (and no row
count is returned). -/
theorem dry_run_preserves_database :
    (∀ (acts : List Action) (s : ExecState), (runActions true acts s).db = s.db) ∧
    (∀ (stmt : Stmt) (s : ExecState),
      (exec_modify true stmt s).1.db = s.db ∧
      (exec_modify true stmt s).1.log = s.log ++ [.dryRunStmt stmt] ∧
      (exec_modify true stmt s).2 = none) := by
  constructor
  · intro acts
    induction acts with
    | nil => intro s; rfl
    | cons a t ih =>
      intro s
      simp only [runActions, List.foldl_cons] at ih ⊢
      rw [ih]
      rcases a with _ | ⟨o, n⟩ | _ | n
      · exact list_all_sensors_db s
      · exact merge_check_dry_db o n s
      · exact merge_all_dry_db s
      · exact merge_single_dry_db n s
  · intro stmt s
    exact ⟨rfl, by simp [exec_modify, addLog], rfl⟩

/-! ### merge_all_sensors candidate selection -/

/-- A single metadata row named `sensor.a2`: the name does not end in the
literal suffix `_2`, but SQL LIKE `'%_2'` matches it anyway because `_` is
a single-character wildcard. -/
def dbLikeWildcard : DB :=
  { statistics_meta := [{ id := 1, statistic_id := "sensor.a2" }],
    states_meta := [], statistics := [], statistics_short_term := [], states := [] }

set_option maxRecDepth 4000 in
/-- C6 (bug evidence): `merge_all_sensors` selects `sensor.a2` as a
candidate although its name does not end in the literal two-character
suffix `_2`, because the unescaped `_` in `LIKE '%_2'` is a wildcard: the
run logs `Process sensor sensor.` (the base after stripping two characters)
and invokes `merge_single_sensor` on `sensor.`, which then warns
not-found; per the claim (and the function's own docstring) nothing should
have been processed at all. -/
theorem merge_all_like_wildcard_bug :
    likeMatch "%_2" "sensor.a2" = true ∧
    strEndsWith "sensor.a2" "_2" = false ∧
    (merge_all_sensors true (initState dbLikeWildcard)).log =
      [.processSensor "sensor.", .sensorNotFound "sensor.", .doesNotExist "sensor."] ∧
    (merge_all_sensors true (initState dbLikeWildcard)).calls = [] := by
  exact ⟨by decide, by decide, by decide, by decide⟩

end DbMaint
